import Mathlib

/-!
Verification development for the GitHunt-API resolver layer
(`src/api/schema.js`).  The resolvers are embedded as pure Lean
functions; the persistent store and the pub/sub broker are external
collaborators of that file, so their semantics are modelled from the
spec (§4, §6) where a claim needs them.  JavaScript `undefined` for an
omitted optional argument is modelled as `Option.none`; comparisons of
`undefined` with numbers evaluate to `false`, exactly as in JS.
-/

namespace GitHunt

/-- A logged-in user in the request context (`context.user`). -/
structure GHUser where
  login : String
deriving Repr, DecidableEq

/-- An entry row: a submitted repository (spec §3: Entry). -/
structure Entry where
  repository_name : String
  posted_by : String
deriving Repr, DecidableEq

/-- A comment row; `repository_name` is the field the subscription
filter in `schema.js` reads (`payload.commentAdded.repository_name`). -/
structure Comment where
  id : Nat
  repository_name : String
  posted_by : String
  content : String
deriving Repr, DecidableEq

/-- One vote record: (entry key, voter identity, signed value). -/
structure VoteRec where
  repository_name : String
  username : String
  vote_value : Int
deriving Repr, DecidableEq

/-- The persistent state seen through the store collaborators, plus an
external repository directory (`repos` lists the GitHub repositories
that exist). -/
structure DB where
  repos : List String
  entries : List Entry
  votes : List VoteRec
  comments : List Comment
  nextCommentId : Nat
deriving Repr, DecidableEq

/-- The `FeedType` enum from the GraphQL schema. -/
inductive FeedType
  | HOT
  | NEW
  | TOP
deriving Repr, DecidableEq

/-- The `VoteType` enum from the GraphQL schema. -/
inductive VoteType
  | UP
  | DOWN
  | CANCEL
deriving Repr, DecidableEq

/-- Topic constant `const COMMENT_ADDED_TOPIC = 'commentAdded';` (schema.js line 116). -/
def COMMENT_ADDED_TOPIC : String := "commentAdded"

/-- Errors thrown by the mutation resolvers; each constructor is one
`throw new Error(...)` site in schema.js, tagged by the spec's error
kind (§7). -/
inductive Err
  | notAuthenticated (msg : String)
  | unknownRepository (repoFullName : String)
  | duplicateSubmission
deriving Repr, DecidableEq

/-- Observable calls a resolver makes on its collaborators, in order. -/
inductive Eff
  | callRepoGetByFullName (name : String)
  | callEntriesGetByRepoFullName (name : String)
  | callEntriesSubmitRepository (name : String) (login : String)
  | callEntriesVoteForEntry (name : String) (value : Int) (login : String)
  | callCommentsSubmitComment (name : String) (login : String) (content : String)
  | callCommentsGetCommentById (id : Nat)
  | publish (topic : String) (commentAdded : Option Comment)
deriving Repr, DecidableEq

/-- Modelled from the spec: `RepositoryDirectory.exists` (§6); schema.js
calls it as `context.Repositories.getByFullName(repoFullName)` and only
tests the result for truthiness. -/
def Repositories.getByFullName (name : String) (db : DB) : Option String :=
  if db.repos.contains name then some name else none

/-- Modelled from the spec: `PersistentStore.getEntryByRepoFullName`
(§6) — look up the Entry keyed by repository full name. -/
def Entries.getByRepoFullName (name : String) (db : DB) : Option Entry :=
  db.entries.find? (fun e => e.repository_name == name)

/-- Modelled from the spec: `PersistentStore.createEntry` (§6) — create
an Entry for the repository, recording the submitter. -/
def Entries.submitRepository (name : String) (login : String) (db : DB) : DB :=
  { db with entries := db.entries ++ [⟨name, login⟩] }

/-- Modelled from the spec: `VoteLedger.castVote` (§4.3) — upsert the
(entry, voter) record; a repeat vote from the same voter replaces the
prior value rather than summing. -/
def Entries.voteForEntry (name : String) (value : Int) (login : String) (db : DB) : DB :=
  { db with votes :=
      db.votes.filter (fun w => !(w.repository_name == name && w.username == login))
        ++ [⟨name, login, value⟩] }

/-- Modelled from the spec: `VoteLedger.currentScore` (§4.3) — sum over
all vote records for the entry. -/
def currentScore (name : String) (db : DB) : Int :=
  ((db.votes.filter (fun w => w.repository_name == name)).map (fun w => w.vote_value)).sum

/-- Sum of the votes on `name` cast by voters other than `login`
(the part of the score a vote by `login` cannot touch). -/
def currentScoreExcl (name : String) (login : String) (db : DB) : Int :=
  ((db.votes.filter (fun w => w.repository_name == name && !(w.username == login))).map
      (fun w => w.vote_value)).sum

/-- Modelled from the spec: `PersistentStore.createComment` (§6) —
create a Comment and return its assigned sequence id. -/
def Comments.submitComment (name : String) (login : String) (content : String)
    (db : DB) : Nat × DB :=
  (db.nextCommentId,
   { db with comments := db.comments ++ [⟨db.nextCommentId, name, login, content⟩],
             nextCommentId := db.nextCommentId + 1 })

/-- Modelled from the spec: `PersistentStore.getCommentById` (§6). -/
def Comments.getCommentById (id : Nat) (db : DB) : Option Comment :=
  db.comments.find? (fun c => c.id == id)

/-- The cache hint set by `cacheControl.setCacheHint({ maxAge })`. -/
structure CacheHint where
  maxAge : Nat
deriving Repr, DecidableEq

/-- The arguments the feed resolver forwards to
`context.Entries.getForFeed(type, offset, protectedLimit)`. -/
structure FeedStoreCall where
  ftype : FeedType
  offset : Option Int
  limit : Option Int
deriving Repr, DecidableEq

/-- The clamp `const protectedLimit = (limit < 1 || limit > 20) ? 20 : limit;`
(schema.js line 169).  `none` is JS `undefined` (argument omitted), for
which both comparisons are `false`, so `undefined` itself is kept. -/
def protectedLimit (limit : Option Int) : Option Int :=
  match limit with
  | none => none
  | some l => if l < 1 || l > 20 then some 20 else some l

/-- Resolver `Query.feed` (schema.js lines 166-172): set a 60-second cache hint,
then forward the arguments — with the protected limit — to the entry
store.  It returns the store's answer unconditionally: no error path. -/
def feed (ftype : FeedType) (offset : Option Int) (limit : Option Int) :
    CacheHint × FeedStoreCall :=
  (⟨60⟩, ⟨ftype, offset, protectedLimit limit⟩)

/-- Resolver `Query.entry` (schema.js lines 173-176): 60-second cache hint, then
a fresh store lookup by repository full name. -/
def entry (repoFullName : String) (db : DB) : CacheHint × Option Entry :=
  (⟨60⟩, Entries.getByRepoFullName repoFullName db)

/-- Resolver `Query.currentUser` (schema.js lines 177-180): 60-second cache
hint, then `context.user || null`. -/
def currentUser (ctxUser : Option GHUser) : CacheHint × Option GHUser :=
  (⟨60⟩, ctxUser)

/-- The vote-value lookup `{ UP: 1, DOWN: -1, CANCEL: 0 }[type]` (schema.js lines 237-241). -/
def voteValueOf : VoteType → Int
  | .UP => 1
  | .DOWN => -1
  | .CANCEL => 0

/-- Resolver `Mutation.submitRepository` (schema.js lines 183-209): auth check,
then repository-directory lookup (throw if absent), then duplicate
entry lookup (throw if present), then create, then reread.  The result
carries the resolver value, the store state after the call, and the
ordered trace of collaborator calls. -/
def submitRepository (ctxUser : Option GHUser) (repoFullName : String) (db : DB) :
    Except Err (Option Entry) × DB × List Eff :=
  match ctxUser with
  | none =>
      (.error (.notAuthenticated "Must be logged in to submit a repository."), db, [])
  | some user =>
      match Repositories.getByFullName repoFullName db with
      | none =>
          (.error (.unknownRepository repoFullName), db,
           [.callRepoGetByFullName repoFullName])
      | some _ =>
          match Entries.getByRepoFullName repoFullName db with
          | some _ =>
              (.error .duplicateSubmission, db,
               [.callRepoGetByFullName repoFullName,
                .callEntriesGetByRepoFullName repoFullName])
          | none =>
              let db2 := Entries.submitRepository repoFullName user.login db
              (.ok (Entries.getByRepoFullName repoFullName db2), db2,
               [.callRepoGetByFullName repoFullName,
                .callEntriesGetByRepoFullName repoFullName,
                .callEntriesSubmitRepository repoFullName user.login,
                .callEntriesGetByRepoFullName repoFullName])

/-- Resolver `Mutation.submitComment` (schema.js lines 211-230): auth check,
then create the comment obtaining its id, then fetch it back by that
id, then publish the fetched comment on `COMMENT_ADDED_TOPIC` and
return it. -/
def submitComment (ctxUser : Option GHUser) (repoFullName : String) (content : String)
    (db : DB) : Except Err (Option Comment) × DB × List Eff :=
  match ctxUser with
  | none =>
      (.error (.notAuthenticated "Must be logged in to submit a comment."), db, [])
  | some user =>
      let res := Comments.submitComment repoFullName user.login content db
      let fetched := Comments.getCommentById res.1 res.2
      (.ok fetched, res.2,
       [.callCommentsSubmitComment repoFullName user.login content,
        .callCommentsGetCommentById res.1,
        .publish COMMENT_ADDED_TOPIC fetched])

/-- Resolver `Mutation.vote` (schema.js lines 232-250): auth check, then map the
vote-type token to its signed value, then record it via the vote
effect, then reread and return the entry. -/
def vote (ctxUser : Option GHUser) (repoFullName : String) (t : VoteType) (db : DB) :
    Except Err (Option Entry) × DB × List Eff :=
  match ctxUser with
  | none =>
      (.error (.notAuthenticated "Must be logged in to vote."), db, [])
  | some user =>
      let db2 := Entries.voteForEntry repoFullName (voteValueOf t) user.login db
      (.ok (Entries.getByRepoFullName repoFullName db2), db2,
       [.callEntriesVoteForEntry repoFullName (voteValueOf t) user.login,
        .callEntriesGetByRepoFullName repoFullName])

/-- How many publish calls a trace contains. -/
def publishCount (effs : List Eff) : Nat :=
  (effs.filter (fun e => match e with | .publish _ _ => true | _ => false)).length

/-- The pub/sub payload published by `submitComment`:
`{ commentAdded: comment }`. -/
structure CommentAddedPayload where
  commentAdded : Comment
deriving Repr, DecidableEq

/-- The filter predicate of `Subscription.commentAdded` (schema.js
line 255): `payload.commentAdded.repository_name === args.repoFullName`. -/
def commentAddedFilter (payload : CommentAddedPayload) (repoFullName : String) : Bool :=
  payload.commentAdded.repository_name == repoFullName

/-- A live subscription: the topic its async iterator was opened on and
its `repoFullName` argument (spec §3: Subscription). -/
structure LiveSubscription where
  topic : String
  repoFullName : String
deriving Repr, DecidableEq

/-- The subscription `commentAdded(repoFullName)` opens its iterator on
`COMMENT_ADDED_TOPIC` (schema.js line 254). -/
def commentAddedSubscription (repoFullName : String) : LiveSubscription :=
  ⟨COMMENT_ADDED_TOPIC, repoFullName⟩

/-- Modelled from the spec: EventBus delivery (§4.1) — a published
event reaches a live subscriber exactly when the publish topic matches
the subscriber's topic and the subscriber's filter predicate accepts
the payload.  The predicate itself is `commentAddedFilter` from the
source. -/
def deliveredTo (sub : LiveSubscription) (pubTopic : String)
    (payload : CommentAddedPayload) : Bool :=
  sub.topic == pubTopic && commentAddedFilter payload sub.repoFullName

/-- Map-link constant `const mapLinkBase = 'https://www.google.com/maps/?q=';` (schema.js
line 112). -/
def mapLinkBase : String := "https://www.google.com/maps/?q="

/-- A JavaScript runtime error inside the promise executor: either the
error value the node-style callback reported, or a synchronous throw
(reading `res[0]` of a missing result, or `JSON.parse` on a missing
body).  Coordinates are carried as integers: their numeric precision
plays no role in the claims. -/
inductive JsError
  | cbError (tag : String)
  | typeError
  | jsonParseError
deriving Repr, DecidableEq

/-- How a JS promise ends up settled: first settlement wins, later
settlement attempts and later throws inside the executor are ignored. -/
inductive Settled (α : Type)
  | resolved (value : α)
  | rejected (e : JsError)
deriving Repr, DecidableEq

/-- One geocoder result row (`res[0]` of node-geocoder). -/
structure GeoResult where
  city : String
  country : String
  latitude : Int
  longitude : Int
deriving Repr, DecidableEq

/-- The location value `getLocation` resolves with. -/
structure LocationVal where
  city : String
  country : String
  coords : List Int
  mapLink : String
deriving Repr, DecidableEq

/-- The weather value `getWeather` resolves with. -/
structure WeatherVal where
  summary : String
  temperature : Int
  coords : List Int
deriving Repr, DecidableEq

/-- One run of a node-style library callback.  The `new Promise`
executor has already returned by the time the library invokes the
callback, so only explicit `resolve`/`reject` calls settle the promise
(first one wins); a throw during the callback is NOT converted into a
rejection — it escapes as an uncaught exception in the library's
invocation context. -/
structure CallbackRun (α : Type) where
  settlements : List (Settled α)
  escapedThrow : Option JsError
deriving Repr, DecidableEq

/-- The callback `getLocation` hands to `geocoder.geocode` (schema.js
lines 129-142): `if (err) reject(err);` has no `return`, so the code
always goes on to destructure `res[0]`; a missing or empty result makes
that read throw a TypeError, which escapes the async callback. -/
def getLocationCallbackRun (err : Option String) (res : Option (List GeoResult)) :
    CallbackRun LocationVal :=
  let rejections : List (Settled LocationVal) :=
    match err with
    | some e => [Settled.rejected (JsError.cbError e)]
    | none => []
  match res with
  | some (r :: _) =>
      ⟨rejections ++
        [Settled.resolved
          ⟨r.city, r.country, [r.latitude, r.longitude],
           mapLinkBase ++ toString r.latitude ++ "," ++ toString r.longitude⟩],
       none⟩
  | _ => ⟨rejections, some JsError.typeError⟩

/-- How the promise `getLocation` returned ends up: the first
settlement call made during the callback run, or `none` when no
settlement call ever happens — the promise then stays pending forever. -/
def getLocationPromiseOutcome (err : Option String) (res : Option (List GeoResult)) :
    Option (Settled LocationVal) :=
  (getLocationCallbackRun err res).settlements.head?

/-- The exception, if any, escaping `getLocation`'s callback run as an
uncaught exception outside the promise (process-fatal by default in
Node). -/
def getLocationUncaught (err : Option String) (res : Option (List GeoResult)) :
    Option JsError :=
  (getLocationCallbackRun err res).escapedThrow

/-- The callback `getWeather` hands to `request` (schema.js lines
149-160): `if (error) reject(error);` has no `return`, so the code
always goes on to `JSON.parse(body)` and the `.currently` reads,
modelled by `parsedCurrently` (`none` when that chain throws, e.g. on
an undefined body); the throw escapes the async callback. -/
def getWeatherCallbackRun (error : Option String)
    (parsedCurrently : Option (String × Int)) (coords : List Int) :
    CallbackRun WeatherVal :=
  let rejections : List (Settled WeatherVal) :=
    match error with
    | some e => [Settled.rejected (JsError.cbError e)]
    | none => []
  match parsedCurrently with
  | some st => ⟨rejections ++ [Settled.resolved ⟨st.1, st.2, coords⟩], none⟩
  | none => ⟨rejections, some JsError.jsonParseError⟩

/-- How the promise `getWeather` returned ends up: first settlement
call, or `none` when the promise never settles. -/
def getWeatherPromiseOutcome (error : Option String)
    (parsedCurrently : Option (String × Int)) (coords : List Int) :
    Option (Settled WeatherVal) :=
  (getWeatherCallbackRun error parsedCurrently coords).settlements.head?

/-- The exception, if any, escaping `getWeather`'s callback run as an
uncaught exception outside the promise. -/
def getWeatherUncaught (error : Option String)
    (parsedCurrently : Option (String × Int)) (coords : List Int) :
    Option JsError :=
  (getWeatherCallbackRun error parsedCurrently coords).escapedThrow

end GitHunt

namespace GitHunt

/-- Claim C1: The limit actually used by the feed resolver is clamped to
[1, 20]: every requested value ≤ 0 or > 20 forwards exactly 20 to the
entry store, every value in 1..20 is forwarded unchanged, and in either
case the resolver returns the store call rather than raising any
validation error (its result type has no error case). -/
theorem feed_limit_clamped (ftype : FeedType) (offset : Option Int) (l : Int) :
    (l ≤ 0 ∨ l > 20 →
      (feed ftype offset (some l)).2.limit = some 20) ∧
    (1 ≤ l → l ≤ 20 →
      (feed ftype offset (some l)).2.limit = some l) := by
  constructor
  · intro h
    simp only [feed, protectedLimit]
    rcases h with h | h
    · simp [show l < 1 by omega]
    · have h1 : ¬ l < 1 ∨ l < 1 := em _ |>.symm
      simp [h]
  · intro h1 h2
    simp only [feed, protectedLimit]
    simp [show ¬ l < 1 by omega, show ¬ l > 20 by omega]

/-- Witness for C1: at requested limits 500, 0 and 10 the store
receives 20, 20 and 10 respectively. -/
theorem feed_limit_clamped_witness :
    ((500 : Int) ≤ 0 ∨ (500 : Int) > 20) ∧
      (feed FeedType.HOT none (some 500)).2.limit = some 20 ∧
    ((0 : Int) ≤ 0 ∨ (0 : Int) > 20) ∧
      (feed FeedType.HOT none (some 0)).2.limit = some 20 ∧
    (1 : Int) ≤ 10 ∧ (10 : Int) ≤ 20 ∧
      (feed FeedType.HOT none (some 10)).2.limit = some 10 := by
  refine ⟨by decide, ?_, by decide, ?_, by decide, by decide, ?_⟩
  · exact (feed_limit_clamped FeedType.HOT none 500).1 (by decide)
  · exact (feed_limit_clamped FeedType.HOT none 0).1 (by decide)
  · exact (feed_limit_clamped FeedType.HOT none 10).2 (by decide) (by decide)

/-- Claim C10: When the optional `limit` argument is omitted (JS
`undefined`, here `none`), neither clamp comparison holds, so the
undefined value itself — not 20 — is forwarded to the entry store. -/
theorem feed_limit_omitted_forwarded (ftype : FeedType) (offset : Option Int) :
    (feed ftype offset none).2.limit = none ∧
    (feed ftype offset none).2.limit ≠ some 20 := by
  exact ⟨rfl, by simp [feed, protectedLimit]⟩

/-- Claim C2: Each of the three mutations, invoked with no authenticated
user in the context, fails at once with its `Must be logged in` error:
the store state is returned unchanged and the collaborator-call trace
is empty, so no entry, vote or comment state is touched and nothing is
published. -/
theorem mutations_unauthenticated_no_effect (repoFullName content : String)
    (t : VoteType) (db : DB) :
    submitRepository none repoFullName db =
      (.error (.notAuthenticated "Must be logged in to submit a repository."), db, []) ∧
    submitComment none repoFullName content db =
      (.error (.notAuthenticated "Must be logged in to submit a comment."), db, []) ∧
    vote none repoFullName t db =
      (.error (.notAuthenticated "Must be logged in to vote."), db, []) := by
  exact ⟨rfl, rfl, rfl⟩

/-- Reading an entry back right after creating it, when none existed
before, yields exactly the freshly created row. -/
theorem getByRepoFullName_after_submit (name login : String) (db : DB)
    (h : Entries.getByRepoFullName name db = none) :
    Entries.getByRepoFullName name (Entries.submitRepository name login db) =
      some ⟨name, login⟩ := by
  simp only [Entries.getByRepoFullName, Entries.submitRepository] at *
  simp [List.find?_append, h]

/-- Claim C3: `submitRepository` for an authenticated user proceeds
AuthCheck → repository-existence check → duplicate-entry check →
create → reread, each step short-circuiting: an unknown repository
fails with `UnknownRepository` after only the directory call; an
existing Entry fails with `DuplicateSubmission` after only the two
lookups, leaving the store state (entries, votes, comments) untouched;
otherwise the entry is created and the reread returns the freshly
created Entry. -/
theorem submitRepository_order (u : GHUser) (name : String) (db : DB) :
    (Repositories.getByFullName name db = none →
      submitRepository (some u) name db =
        (.error (.unknownRepository name), db, [.callRepoGetByFullName name])) ∧
    ((Repositories.getByFullName name db).isSome →
      (Entries.getByRepoFullName name db).isSome →
      submitRepository (some u) name db =
        (.error .duplicateSubmission, db,
         [.callRepoGetByFullName name, .callEntriesGetByRepoFullName name])) ∧
    ((Repositories.getByFullName name db).isSome →
      Entries.getByRepoFullName name db = none →
      submitRepository (some u) name db =
        (.ok (some ⟨name, u.login⟩), Entries.submitRepository name u.login db,
         [.callRepoGetByFullName name, .callEntriesGetByRepoFullName name,
          .callEntriesSubmitRepository name u.login,
          .callEntriesGetByRepoFullName name])) := by
  refine ⟨?_, ?_, ?_⟩
  · intro h
    simp [submitRepository, h]
  · intro h1 h2
    rcases Option.isSome_iff_exists.mp h1 with ⟨r, hr⟩
    rcases Option.isSome_iff_exists.mp h2 with ⟨e, he⟩
    simp [submitRepository, hr, he]
  · intro h1 h2
    rcases Option.isSome_iff_exists.mp h1 with ⟨r, hr⟩
    simp [submitRepository, hr, h2, getByRepoFullName_after_submit name u.login db h2]

/-- Witness for C3: concrete runs hitting each of the three branches —
a repository absent from the directory, a repository that already has
an Entry, and a fresh submission. -/
theorem submitRepository_order_witness :
    (Repositories.getByFullName "A/A" ⟨[], [], [], [], 0⟩ = none ∧
      submitRepository (some ⟨"alice"⟩) "A/A" ⟨[], [], [], [], 0⟩ =
        (.error (.unknownRepository "A/A"), ⟨[], [], [], [], 0⟩,
         [.callRepoGetByFullName "A/A"])) ∧
    ((Repositories.getByFullName "A/A" ⟨["A/A"], [⟨"A/A", "bob"⟩], [], [], 0⟩).isSome ∧
      (Entries.getByRepoFullName "A/A" ⟨["A/A"], [⟨"A/A", "bob"⟩], [], [], 0⟩).isSome ∧
      submitRepository (some ⟨"alice"⟩) "A/A" ⟨["A/A"], [⟨"A/A", "bob"⟩], [], [], 0⟩ =
        (.error .duplicateSubmission, ⟨["A/A"], [⟨"A/A", "bob"⟩], [], [], 0⟩,
         [.callRepoGetByFullName "A/A", .callEntriesGetByRepoFullName "A/A"])) ∧
    ((Repositories.getByFullName "A/A" ⟨["A/A"], [], [], [], 0⟩).isSome ∧
      Entries.getByRepoFullName "A/A" ⟨["A/A"], [], [], [], 0⟩ = none ∧
      submitRepository (some ⟨"alice"⟩) "A/A" ⟨["A/A"], [], [], [], 0⟩ =
        (.ok (some ⟨"A/A", "alice"⟩),
         Entries.submitRepository "A/A" "alice" ⟨["A/A"], [], [], [], 0⟩,
         [.callRepoGetByFullName "A/A", .callEntriesGetByRepoFullName "A/A",
          .callEntriesSubmitRepository "A/A" "alice",
          .callEntriesGetByRepoFullName "A/A"])) := by
  refine ⟨⟨by decide, ?_⟩, ⟨by decide, by decide, ?_⟩, ⟨by decide, by decide, ?_⟩⟩
  · exact (submitRepository_order ⟨"alice"⟩ "A/A" ⟨[], [], [], [], 0⟩).1 (by decide)
  · exact (submitRepository_order ⟨"alice"⟩ "A/A"
      ⟨["A/A"], [⟨"A/A", "bob"⟩], [], [], 0⟩).2.1 (by decide) (by decide)
  · exact (submitRepository_order ⟨"alice"⟩ "A/A" ⟨["A/A"], [], [], [], 0⟩).2.2
      (by decide) (by decide)

/-- Claim C5: For every authenticated `vote` mutation the vote-type token
maps exactly as UP to +1, DOWN to -1, CANCEL to 0; that value is
recorded through the vote effect and the mutation returns the entry
reread from the state the effect produced. -/
theorem vote_maps_token_and_rereads (u : GHUser) (name : String) (t : VoteType) (db : DB) :
    voteValueOf VoteType.UP = 1 ∧ voteValueOf VoteType.DOWN = -1 ∧
    voteValueOf VoteType.CANCEL = 0 ∧
    vote (some u) name t db =
      (.ok (Entries.getByRepoFullName name
              (Entries.voteForEntry name (voteValueOf t) u.login db)),
       Entries.voteForEntry name (voteValueOf t) u.login db,
       [.callEntriesVoteForEntry name (voteValueOf t) u.login,
        .callEntriesGetByRepoFullName name]) := by
  exact ⟨rfl, rfl, rfl, rfl⟩

/-- Claim C6: A successful (authenticated) `submitComment` publishes
exactly one event, on the fixed topic `commentAdded`; both the
published payload and the mutation result are the comment fetched back
by its assigned id from the post-creation state (not the write-time
payload), the fetch preceding the publish in the trace; an
unauthenticated call publishes nothing. -/
theorem submitComment_publishes_once (u : GHUser) (name content : String) (db : DB) :
    publishCount (submitComment (some u) name content db).2.2 = 1 ∧
    (submitComment (some u) name content db).2.2 =
      [.callCommentsSubmitComment name u.login content,
       .callCommentsGetCommentById (Comments.submitComment name u.login content db).1,
       .publish COMMENT_ADDED_TOPIC
         (Comments.getCommentById (Comments.submitComment name u.login content db).1
           (Comments.submitComment name u.login content db).2)] ∧
    (submitComment (some u) name content db).1 =
      .ok (Comments.getCommentById (Comments.submitComment name u.login content db).1
            (Comments.submitComment name u.login content db).2) ∧
    COMMENT_ADDED_TOPIC = "commentAdded" ∧
    publishCount (submitComment none name content db).2.2 = 0 := by
  exact ⟨rfl, rfl, rfl, rfl, rfl⟩

/-- A repeat vote by the same voter on the same entry replaces the
earlier record: the earlier vote leaves no trace in the ledger. -/
theorem voteForEntry_overwrite (name login : String) (v1 v2 : Int) (db : DB) :
    Entries.voteForEntry name v2 login (Entries.voteForEntry name v1 login db) =
      Entries.voteForEntry name v2 login db := by
  simp [Entries.voteForEntry, List.filter_append, List.filter_filter, Bool.and_comm]

/-- Restricting the ledger to entry `name` after dropping `login`'s
record sums to the votes on `name` by the other voters. -/
theorem score_filter_aux (name login : String) (xs : List VoteRec) :
    (xs.filter (fun w => !(w.repository_name == name && w.username == login))).filter
        (fun w => w.repository_name == name) =
      xs.filter (fun w => w.repository_name == name && !(w.username == login)) := by
  induction xs with
  | nil => rfl
  | cons x xs ih =>
      cases h1 : x.repository_name == name <;> cases h2 : x.username == login <;>
        simp only [List.filter_cons, h1, h2, Bool.not_true, Bool.not_false,
          Bool.false_and, Bool.true_and, Bool.and_false, Bool.and_true,
          Bool.false_eq_true, ite_true, ite_false, if_false, ih]

/-- After `login` casts value `v` on `name`, the entry's score is the
other voters' contribution plus `v` — independent of any earlier vote
by `login`. -/
theorem currentScore_voteForEntry (name login : String) (v : Int) (db : DB) :
    currentScore name (Entries.voteForEntry name v login db) =
      currentScoreExcl name login db + v := by
  unfold currentScore currentScoreExcl Entries.voteForEntry
  rw [List.filter_append, score_filter_aux]
  simp

/-- Claim C7: The aggregate score reflects only the last vote value from
a given voter: a repeat vote replaces the earlier record outright, the
resulting score is the other voters' sum plus the last value whatever
was cast before, casting UP(+1) then DOWN(-1) moves the score by -2
relative to the UP state, and casting CANCEL(0) zeroes that voter's
contribution. -/
theorem vote_last_write_wins (name login : String) (v1 v2 : Int) (db : DB) :
    Entries.voteForEntry name v2 login (Entries.voteForEntry name v1 login db) =
      Entries.voteForEntry name v2 login db ∧
    currentScore name
        (Entries.voteForEntry name v2 login (Entries.voteForEntry name v1 login db)) =
      currentScoreExcl name login db + v2 ∧
    currentScore name
        (Entries.voteForEntry name (voteValueOf VoteType.DOWN) login
          (Entries.voteForEntry name (voteValueOf VoteType.UP) login db)) =
      currentScore name (Entries.voteForEntry name (voteValueOf VoteType.UP) login db)
        - 2 ∧
    currentScore name (Entries.voteForEntry name (voteValueOf VoteType.CANCEL) login db) =
      currentScoreExcl name login db := by
  refine ⟨voteForEntry_overwrite name login v1 v2 db, ?_, ?_, ?_⟩
  · rw [voteForEntry_overwrite]
    exact currentScore_voteForEntry name login v2 db
  · rw [voteForEntry_overwrite]
    rw [show voteValueOf VoteType.DOWN = -1 from rfl,
        show voteValueOf VoteType.UP = 1 from rfl,
        currentScore_voteForEntry, currentScore_voteForEntry]
    omega
  · rw [show voteValueOf VoteType.CANCEL = 0 from rfl, currentScore_voteForEntry]
    omega

/-- Claim C4: A published comment-added event is delivered to a live
`commentAdded` subscription exactly when the comment's repository name
equals the subscription's `repoFullName` argument; in particular, with
subscriptions on "A/A" and "B/B", an event for entry "A/A" reaches only
the first. -/
theorem commentAdded_filter_iff (c : Comment) (r : String) :
    (deliveredTo (commentAddedSubscription r) COMMENT_ADDED_TOPIC ⟨c⟩ = true ↔
      c.repository_name = r) ∧
    deliveredTo (commentAddedSubscription "A/A") COMMENT_ADDED_TOPIC
      ⟨⟨1, "A/A", "alice", "nice repo"⟩⟩ = true ∧
    deliveredTo (commentAddedSubscription "B/B") COMMENT_ADDED_TOPIC
      ⟨⟨1, "A/A", "alice", "nice repo"⟩⟩ = false := by
  refine ⟨?_, by decide, by decide⟩
  simp [deliveredTo, commentAddedSubscription, commentAddedFilter]

/-- Claim C8: the claim says an enrichment failure is propagated as a
rejection of that field's promise only, without failing the whole
response or crashing the process.  The code does reject the promise
with the callback's error, but — missing a `return` after each
`reject` — it then reads `res[0]` / parses the body unconditionally.
That throw happens in the library's async callback, after the executor
has returned, so it escapes as an uncaught exception (process-fatal by
Node default) instead of being confined to the field; and with a null
error and a bad result no settlement call is ever made, so the promise
stays pending forever.  This theorem evaluates the code at the failing
inputs. -/
theorem enrichment_failure_escapes :
    getLocationPromiseOutcome (some "geocode failed") none =
      some (Settled.rejected (JsError.cbError "geocode failed")) ∧
    getLocationUncaught (some "geocode failed") none = some JsError.typeError ∧
    getWeatherPromiseOutcome (some "network error") none [1, 2] =
      some (Settled.rejected (JsError.cbError "network error")) ∧
    getWeatherUncaught (some "network error") none [1, 2] =
      some JsError.jsonParseError ∧
    getLocationPromiseOutcome none none = none ∧
    getLocationUncaught none none = some JsError.typeError ∧
    getWeatherPromiseOutcome none none [1, 2] = none ∧
    getWeatherUncaught none none [1, 2] = some JsError.jsonParseError := by
  exact ⟨rfl, rfl, rfl, rfl, rfl, rfl, rfl, rfl⟩

/-- Claim C9: The feed, single-entry and current-user queries each attach
a cache hint of exactly 60 seconds on every invocation; their results
are fresh reads of the request context (the entry one the store lookup,
the user one `context.user`), with no memoization state anywhere in the
resolvers. -/
theorem queries_cache_hint_sixty (ftype : FeedType) (offset limit : Option Int)
    (name : String) (db : DB) (ctxUser : Option GHUser) :
    (feed ftype offset limit).1 = ⟨60⟩ ∧
    (entry name db).1 = ⟨60⟩ ∧
    (currentUser ctxUser).1 = ⟨60⟩ ∧
    (entry name db).2 = Entries.getByRepoFullName name db ∧
    (currentUser ctxUser).2 = ctxUser := by
  exact ⟨rfl, rfl, rfl, rfl, rfl⟩

end GitHunt
